import Mathlib

/-!
Verification of the MapScraper search-session core: the session state
machine driven by `handleSearch`, the blank-input guard in the search
form, the geolocation pass-through, the JSON export action, and the
display-branch selection of the top-level component.

Definitions are shallow embeddings of the TypeScript source
(`src/types.ts` and the main application file).
-/

namespace MapScraper

/-- Embeds `interface PlaceResult` from `src/types.ts`: `title` and `uri`
are required, `summary` and `reviewSnippets` are optional. -/
structure PlaceResult where
  title : String
  uri : String
  summary : Option String := none
  reviewSnippets : Option (List String) := none
deriving DecidableEq, Repr

/-- Embeds `interface SearchState` from `src/types.ts`. `error` is
`string | null`, embedded as `Option String`. -/
structure SearchState where
  query : String
  results : List PlaceResult
  analysis : String
  isLoading : Bool
  error : Option String
deriving DecidableEq, Repr

/-- The initial session state passed to `useState` in `App`
(query empty, results empty, analysis empty, not loading, no error). -/
def initialState : SearchState :=
  { query := "", results := [], analysis := "", isLoading := false, error := none }

/-- Embeds `interface GeolocationData` from `src/types.ts`. Coordinates
are IEEE numbers in the source; no arithmetic is ever performed on them,
they are only stored and passed through, so `Float` is used verbatim. -/
structure GeolocationData where
  latitude : Float
  longitude : Float

/-- The success payload of `geminiService.searchPlaces`: a list of places
and an analysis string, as destructured in the success branch of
`handleSearch` (`data.places`, `data.analysis`). -/
structure SearchData where
  places : List PlaceResult
  analysis : String

/-- The dispatch write of `handleSearch`:
`setState(prev => (\x7b ...prev, isLoading: true, error: null, query \x7d))`.
All other fields are spread from the previous state. -/
def dispatchSearch (q : String) (prev : SearchState) : SearchState :=
  { prev with isLoading := true, error := none, query := q }

/-- The success write of `handleSearch`:
`setState(prev => (\x7b ...prev, isLoading: false, results: data.places, analysis: data.analysis \x7d))`. -/
def applySuccess (data : SearchData) (prev : SearchState) : SearchState :=
  { prev with isLoading := false, results := data.places, analysis := data.analysis }

/-- The error-message selection in the catch branch of `handleSearch`:
`err instanceof Error ? err.message : "An unexpected error occurred"`.
A failure that carries a message (a thrown `Error`) is `some m`; a
failure that carries none (a thrown non-`Error` value) is `none`. -/
def errorMessage : Option String → String
  | some m => m
  | none => "An unexpected error occurred"

/-- The failure write of `handleSearch`:
`setState(prev => (\x7b ...prev, isLoading: false, error: <message> \x7d))`. -/
def applyFailure (err : Option String) (prev : SearchState) : SearchState :=
  { prev with isLoading := false, error := some (errorMessage err) }

/-- Embeds the JavaScript `String.prototype.trim` used in
`SearchHero.handleSubmit`: removes leading and trailing whitespace
characters. -/
def jsTrim (s : String) : String :=
  String.mk (((s.toList.dropWhile Char.isWhitespace).reverse.dropWhile
    Char.isWhitespace).reverse)

/-- The guard in `SearchHero.handleSubmit`:
`if (inputValue.trim()) onSearch(inputValue)`. A blank-after-trim input
dispatches nothing; a non-blank input dispatches the ORIGINAL
(untrimmed) `inputValue`. -/
def handleSubmit (inputValue : String) : Option String :=
  if jsTrim inputValue = "" then none else some inputValue

/-- One hexadecimal digit, lower case, as produced by JavaScript
`JSON.stringify` when escaping control characters. -/
def hexDigit (n : Nat) : Char :=
  if n < 10 then Char.ofNat (48 + n) else Char.ofNat (87 + n)

/-- Four-digit hexadecimal rendering of a code point below 0x10000. -/
def hex4 (n : Nat) : String :=
  String.mk [hexDigit (n / 4096 % 16), hexDigit (n / 256 % 16),
    hexDigit (n / 16 % 16), hexDigit (n % 16)]

/-- Escaping of one character inside a JSON string literal, following the
`JSON.stringify` quoting rules: quote and backslash are backslash-escaped,
the named control characters use their short escapes, remaining control
characters below 0x20 use a `\u00XX` escape, everything else is copied
verbatim. -/
def jsonEscapeChar (c : Char) : String :=
  if c = '"' then "\\\""
  else if c = '\\' then "\\\\"
  else if c = '\x08' then "\\b"
  else if c = '\t' then "\\t"
  else if c = '\n' then "\\n"
  else if c = '\x0c' then "\\f"
  else if c = '\r' then "\\r"
  else if c.toNat < 32 then "\\u" ++ hex4 c.toNat
  else String.singleton c

/-- A JSON string literal for `s`, per `JSON.stringify`. -/
def jsonString (s : String) : String :=
  "\"" ++ String.join (s.toList.map jsonEscapeChar) ++ "\""

/-- `n` spaces, the indentation produced by `JSON.stringify(v, null, 2)`
at nesting depth `n / 2`. -/
def indentStr (n : Nat) : String :=
  String.mk (List.replicate n ' ')

/-- `JSON.stringify` of an array of strings (the `reviewSnippets` field)
with a 2-space gap, rendered at nesting depth `depth`. An empty array
prints as `[]`; otherwise one element per line, elements indented one
level deeper, closing bracket at the array level. -/
def jsonStringArray (xs : List String) (depth : Nat) : String :=
  match xs with
  | [] => "[]"
  | _ => "[\n" ++
      String.intercalate ",\n"
        (xs.map (fun x => indentStr (2 * (depth + 1)) ++ jsonString x)) ++
      "\n" ++ indentStr (2 * depth) ++ "]"

/-- The key/value pairs `JSON.stringify` emits for a `PlaceResult` object:
insertion order `title`, `uri`, `summary`, `reviewSnippets` (the order of
`interface PlaceResult`), with `undefined` optional fields omitted. -/
def placeFields (p : PlaceResult) (depth : Nat) : List (String × String) :=
  [("title", jsonString p.title), ("uri", jsonString p.uri)] ++
    (match p.summary with
     | some s => [("summary", jsonString s)]
     | none => []) ++
    (match p.reviewSnippets with
     | some r => [("reviewSnippets", jsonStringArray r (depth + 1))]
     | none => [])

/-- `JSON.stringify` of one `PlaceResult` object with a 2-space gap at
nesting depth `depth`. -/
def jsonPlace (p : PlaceResult) (depth : Nat) : String :=
  "\x7b\n" ++
    String.intercalate ",\n"
      ((placeFields p depth).map
        (fun kv => indentStr (2 * (depth + 1)) ++ jsonString kv.1 ++ ": " ++ kv.2)) ++
    "\n" ++ indentStr (2 * depth) ++ "\x7d"

/-- `JSON.stringify(state.results, null, 2)` as computed by
`downloadResults`: the whole results array pretty-printed with 2-space
indentation. -/
def jsonResults (results : List PlaceResult) : String :=
  match results with
  | [] => "[]"
  | _ => "[\n" ++
      String.intercalate ",\n"
        (results.map (fun p => indentStr 2 ++ jsonPlace p 1)) ++
      "\n]"

/-- The artifact produced by `downloadResults`: a download under a file
name with the serialized content. -/
structure ExportArtifact where
  fileName : String
  content : String
deriving DecidableEq, Repr

/-- Embeds `downloadResults`: serializes `state.results` with
`JSON.stringify(state.results, null, 2)` and triggers a download named
`map_data_export.json`. The function reads the session state and returns
it unchanged together with the artifact; the source performs no
`setState` or `setLocation` call here, only DOM-level side effects. -/
def downloadResults (state : SearchState) : SearchState × ExportArtifact :=
  (state, { fileName := "map_data_export.json", content := jsonResults state.results })

/-- The complete mutable state owned by `App`: the session `SearchState`
from `useState<SearchState>` and the geolocation slot from
`useState<GeolocationData | undefined>(undefined)`. -/
structure AppState where
  search : SearchState
  location : Option GeolocationData

/-- The state of `App` at mount: `initialState` and no geolocation. -/
def initialApp : AppState :=
  { search := initialState, location := none }

/-- One invocation of the external collaborator,
`geminiService.searchPlaces(query, location)`, as dispatched by
`handleSearch`. -/
structure CollabCall where
  query : String
  location : Option GeolocationData

/-- One form submission processed by `SearchHero.handleSubmit` followed
by the synchronous part of `handleSearch`: a non-blank input dispatches
the session transition and emits exactly one collaborator call carrying
the current geolocation slot; a blank input does nothing and emits no
call. -/
def formSubmitCall (input : String) (app : AppState) :
    AppState × Option CollabCall :=
  match handleSubmit input with
  | some q =>
      ({ app with search := dispatchSearch q app.search },
       some { query := q, location := app.location })
  | none => (app, none)

/-- The submit button rendered by `SearchHero`: its `disabled` attribute
is bound to the `isLoading` prop (source line `disabled=` followed by
the braced `isLoading`). -/
structure SubmitButtonView where
  disabled : Bool
deriving DecidableEq, Repr

/-- Renders the submit button of `SearchHero` for a given loading flag. -/
def renderSubmitButton (isLoading : Bool) : SubmitButtonView :=
  { disabled := isLoading }

/-- A browser-level firing of the search form for a given typed input:
HTML form submission (button click or implicit submission from the text
field) goes through the form submit button, and a disabled button does
not fire. When the form fires and the input is non-blank, the session
dispatches as in `handleSearch`. -/
inductive SubmitFires : AppState → String → AppState → Prop
  | mk (s : AppState) (input q : String) :
      (renderSubmitButton s.search.isLoading).disabled = false →
      handleSubmit input = some q →
      SubmitFires s input { s with search := dispatchSearch q s.search }

/-- The event-step relation of the application: a form submission, a
collaborator resolution (success or failure) of the outstanding call, or
the one-shot geolocation callback publishing coordinates into the empty
slot. Resolutions only arrive while a call is outstanding
(`isLoading = true`); the geolocation request is issued once at mount, so
its callback can only fill an empty slot. -/
inductive AppStep : AppState → AppState → Prop
  | submit (s s' : AppState) (input : String) :
      SubmitFires s input s' → AppStep s s'
  | success (s : AppState) (d : SearchData) :
      s.search.isLoading = true →
      AppStep s { s with search := applySuccess d s.search }
  | failure (s : AppState) (e : Option String) :
      s.search.isLoading = true →
      AppStep s { s with search := applyFailure e s.search }
  | geoResolve (s : AppState) (g : GeolocationData) :
      s.location = none →
      AppStep s { s with location := some g }

/-- The application states reachable from the mount state. -/
def Reachable (s : AppState) : Prop :=
  Relation.ReflTransGen AppStep initialApp s

/-- The error display branch of `App` (the render guard
`state.error && ...`): shown when `error` is a non-empty string. -/
def showError (s : SearchState) : Bool :=
  match s.error with
  | some m => !m.isEmpty
  | none => false

/-- The results/analysis display branch of `App` (the render guard
`(state.results.length > 0 || state.analysis) && ...`). -/
def showResults (s : SearchState) : Bool :=
  !s.results.isEmpty || !s.analysis.isEmpty

/-- `downloadResults` as invoked from the `App` component: the
application state after the click, paired with the produced artifact.
The handler contains no `setState` and no `setLocation` call. -/
def exportAction (app : AppState) : AppState × ExportArtifact :=
  ({ search := (downloadResults app.search).1, location := app.location },
   (downloadResults app.search).2)

/-- A sample geolocation fix used to instantiate universally quantified
statements at a concrete input. -/
def geoSF : GeolocationData :=
  { latitude := 37.7749, longitude := -122.4194 }

/-- A sample place record with only the required fields present. -/
def joePlace : PlaceResult :=
  { title := "Joe\x27s Cafe", uri := "https://x" }

/-- The application state after the trace: submit "cafe", collaborator
success with one place and analysis "A", submit "bar", collaborator
failure without a message. -/
def overlapApp : AppState :=
  { search :=
      { query := "bar", results := [joePlace], analysis := "A",
        isLoading := false, error := some "An unexpected error occurred" },
    location := none }

/-- An application state whose session is mid-request. -/
def loadingApp : AppState :=
  { search := { initialState with isLoading := true }, location := none }

end MapScraper

namespace MapScraper

/-- Claim C1: for every non-blank query string q, the dispatch write of
`handleSearch` sets `isLoading = true`, `error = none`, `query = q`, and
leaves the prior `results` and `analysis` unchanged. -/
theorem dispatch_sets_loading_clears_error (q : String) (s : SearchState)
    (_hq : jsTrim q ≠ "") :
    (dispatchSearch q s).isLoading = true ∧
    (dispatchSearch q s).error = none ∧
    (dispatchSearch q s).query = q ∧
    (dispatchSearch q s).results = s.results ∧
    (dispatchSearch q s).analysis = s.analysis := by
  exact ⟨rfl, rfl, rfl, rfl, rfl⟩

/-- Witness for C1 at the concrete non-blank query "cafe" from the
initial state. -/
theorem dispatch_sets_loading_clears_error_witness :
    (dispatchSearch "cafe" initialState).isLoading = true ∧
    (dispatchSearch "cafe" initialState).error = none ∧
    (dispatchSearch "cafe" initialState).query = "cafe" ∧
    (dispatchSearch "cafe" initialState).results = initialState.results ∧
    (dispatchSearch "cafe" initialState).analysis = initialState.analysis :=
  dispatch_sets_loading_clears_error "cafe" initialState (by decide)

/-- Claim C2: for every collaborator success response with places `P` and
analysis `A`, applied to the state produced by the dispatch of the same
`handleSearch` call, the resulting state has `isLoading = false`,
`results = P` (the very list, order preserved), `analysis = A`, and
`error = none`. -/
theorem success_resolution (d : SearchData) (q : String) (prev : SearchState) :
    (applySuccess d (dispatchSearch q prev)).isLoading = false ∧
    (applySuccess d (dispatchSearch q prev)).results = d.places ∧
    (applySuccess d (dispatchSearch q prev)).analysis = d.analysis ∧
    (applySuccess d (dispatchSearch q prev)).error = none ∧
    (applySuccess d (dispatchSearch q prev)).query = q :=
  ⟨rfl, rfl, rfl, rfl, rfl⟩

/-- Claim C3: for every collaborator failure, the resulting state has
`isLoading = false` and `error` set to the failure message, falling back
to the generic string when no message is carried, while `results`,
`analysis` and `query` keep the values they had before the call
resolved. -/
theorem failure_resolution (err : Option String) (prev : SearchState) :
    (applyFailure err prev).isLoading = false ∧
    (applyFailure err prev).error = some (errorMessage err) ∧
    (∀ m, errorMessage (some m) = m) ∧
    errorMessage none = "An unexpected error occurred" ∧
    (applyFailure err prev).results = prev.results ∧
    (applyFailure err prev).analysis = prev.analysis ∧
    (applyFailure err prev).query = prev.query :=
  ⟨rfl, rfl, fun _ => rfl, rfl, rfl, rfl, rfl⟩

/-- Claim C4: for every blank or whitespace-only input, submitting the
search dispatches no collaborator call and leaves the entire application
state (session state and geolocation slot) unchanged. -/
theorem blank_submit_noop (input : String) (app : AppState)
    (h : jsTrim input = "") :
    formSubmitCall input app = (app, none) := by
  simp [formSubmitCall, handleSubmit, h]

/-- Witness for C4 at the whitespace-only input of three spaces. -/
theorem blank_submit_noop_witness :
    formSubmitCall "   " initialApp = (initialApp, none) :=
  blank_submit_noop "   " initialApp (by decide)

/-- Counterexample to claim C6: the input " cafe " is dispatched to the
collaborator verbatim, untrimmed, so the query the collaborator receives
is NOT the trimmed string. -/
theorem untrimmed_dispatch_counterexample :
    (formSubmitCall " cafe " initialApp).2 =
      some { query := " cafe ", location := none } ∧
    jsTrim " cafe " ≠ " cafe " :=
  ⟨rfl, by decide⟩

/-- Claim C6 as amended: the caller dispatches only inputs that are
non-blank after trimming, and the query passed to the collaborator is
the original input — guaranteed non-empty (indeed non-blank), but not
trimmed. -/
theorem dispatched_query_nonblank (input q : String)
    (h : handleSubmit input = some q) :
    q = input ∧ jsTrim q ≠ "" ∧ q ≠ "" := by
  unfold handleSubmit at h
  by_cases hc : jsTrim input = ""
  · simp [hc] at h
  · simp [hc] at h
    subst h
    refine ⟨rfl, hc, ?_⟩
    intro hq
    subst hq
    exact hc rfl

/-- Witness for the amended C6 at the non-blank input " cafe ". -/
theorem dispatched_query_nonblank_witness :
    " cafe " = " cafe " ∧ jsTrim " cafe " ≠ "" ∧ " cafe " ≠ "" :=
  dispatched_query_nonblank " cafe " " cafe " rfl

/-- Claim C7: every collaborator call emitted by a form submission
carries exactly the geolocation slot current at dispatch time (none
before the geolocation callback has resolved, the resolved coordinates
after), and no application event ever clears or replaces a resolved
slot, so coordinates, once set, are reused for all subsequent searches
and never re-acquired. -/
theorem geolocation_passthrough :
    (∀ (input : String) (app : AppState) (c : CollabCall),
      (formSubmitCall input app).2 = some c → c.location = app.location) ∧
    (∀ s s' : AppState, AppStep s s' →
      ∀ g : GeolocationData, s.location = some g → s'.location = some g) := by
  constructor
  · intro input app c hc
    cases hh : handleSubmit input with
    | none => simp [formSubmitCall, hh] at hc
    | some q =>
        have hq : (formSubmitCall input app).2 =
            some { query := q, location := app.location } := by
          simp [formSubmitCall, hh]
        rw [hq] at hc
        cases hc
        rfl
  · intro s s' hstep g hg
    cases hstep with
    | submit t input hf =>
        cases hf with
        | mk q hd hs => exact hg
    | success d hl => exact hg
    | failure e hl => exact hg
    | geoResolve g2 hn => rw [hn] at hg; cases hg

/-- Witness for C7: the call emitted before geolocation resolves carries
no location, and a submit step from a state holding the sample fix
preserves the fix. -/
theorem geolocation_passthrough_witness :
    (CollabCall.mk "cafe" none).location = initialApp.location ∧
    (AppState.mk (dispatchSearch "cafe" initialState) (some geoSF)).location =
      some geoSF :=
  ⟨geolocation_passthrough.1 "cafe" initialApp (CollabCall.mk "cafe" none) rfl,
   geolocation_passthrough.2 (AppState.mk initialState (some geoSF))
     (AppState.mk (dispatchSearch "cafe" initialState) (some geoSF))
     (AppStep.submit _ _ "cafe"
       (SubmitFires.mk (AppState.mk initialState (some geoSF)) "cafe" "cafe" rfl rfl))
     geoSF rfl⟩

/-- Claim C8: the export serializes the results to pretty-printed JSON
with 2-space indentation under the fixed file name
map_data_export.json; the empty results list serializes to the two
characters open-bracket close-bracket, and a place carrying only title
and uri serializes with both fields verbatim and the optional fields
omitted. -/
theorem export_serialization :
    (∀ s : SearchState, (downloadResults s).2.fileName = "map_data_export.json") ∧
    jsonResults [] = "[]" ∧
    (downloadResults initialState).2.content = "[]" ∧
    jsonResults [joePlace] =
      "[\n  \x7b\n    \"title\": \"Joe\x27s Cafe\",\n    \"uri\": \"https://x\"\n  \x7d\n]" :=
  ⟨fun _ => rfl, rfl, rfl, by decide⟩

/-- Claim C9: the export action is a pure read: it leaves every field of
the session state and the geolocation slot unchanged. -/
theorem export_pure_read (app : AppState) :
    (exportAction app).1.search.query = app.search.query ∧
    (exportAction app).1.search.results = app.search.results ∧
    (exportAction app).1.search.analysis = app.search.analysis ∧
    (exportAction app).1.search.isLoading = app.search.isLoading ∧
    (exportAction app).1.search.error = app.search.error ∧
    (exportAction app).1.location = app.location ∧
    (exportAction app).1 = app :=
  ⟨rfl, rfl, rfl, rfl, rfl, rfl, rfl⟩

/-- Claim C10: while a collaborator call is in flight the rendered
submit button is disabled, and therefore no form submission can fire, so
no second query is dispatched during the current request. -/
theorem loading_disables_submit (s : AppState) (input : String)
    (s' : AppState) (h : s.search.isLoading = true) :
    (renderSubmitButton s.search.isLoading).disabled = true ∧
    ¬ SubmitFires s input s' := by
  refine ⟨by simp [renderSubmitButton, h], ?_⟩
  intro hf
  cases hf with
  | mk q hd hs =>
      rw [h] at hd
      exact absurd hd (by decide)

/-- Witness for C10 at a concrete loading state. -/
theorem loading_disables_submit_witness :
    (renderSubmitButton loadingApp.search.isLoading).disabled = true ∧
    ¬ SubmitFires loadingApp "cafe" loadingApp :=
  loading_disables_submit loadingApp "cafe" loadingApp rfl

/-- Counterexample to claim C5: the state reached by submit "cafe",
success with one place and analysis "A", submit "bar", failure without a
message is reachable, and in it BOTH the results/analysis branch and the
error branch are displayed — the three display branches are not mutually
exclusive, so "exactly one" fails. -/
theorem branch_overlap_counterexample :
    Reachable overlapApp ∧
    showResults overlapApp.search = true ∧
    showError overlapApp.search = true := by
  have h1 : Relation.ReflTransGen AppStep initialApp
      (AppState.mk (SearchState.mk "cafe" [] "" true none) none) :=
    Relation.ReflTransGen.refl.tail
      (AppStep.submit _ _ "cafe" (SubmitFires.mk initialApp "cafe" "cafe" rfl rfl))
  have h2 : Relation.ReflTransGen AppStep initialApp
      (AppState.mk (SearchState.mk "cafe" [joePlace] "A" false none) none) :=
    h1.tail
      (AppStep.success (AppState.mk (SearchState.mk "cafe" [] "" true none) none)
        (SearchData.mk [joePlace] "A") rfl)
  have h3 : Relation.ReflTransGen AppStep initialApp
      (AppState.mk (SearchState.mk "bar" [joePlace] "A" true none) none) :=
    h2.tail
      (AppStep.submit _ _ "bar"
        (SubmitFires.mk
          (AppState.mk (SearchState.mk "cafe" [joePlace] "A" false none) none)
          "bar" "bar" rfl rfl))
  exact ⟨h3.tail
    (AppStep.failure (AppState.mk (SearchState.mk "bar" [joePlace] "A" true none) none)
      none rfl), rfl, rfl⟩

/-- Claim C5 as amended: in every reachable application state, a session
that is loading carries no error (`isLoading = true` implies
`error = none`); the display branches themselves are not mutually
exclusive. -/
theorem loading_error_invariant (s : AppState) (h : Reachable s) :
    s.search.isLoading = true → s.search.error = none := by
  induction h with
  | refl => intro _; rfl
  | tail hab hbc ih =>
      cases hbc with
      | submit t input hf =>
          cases hf with
          | mk q hd hs => intro _; rfl
      | success d hl =>
          intro hL
          exact absurd hL Bool.false_ne_true
      | failure e hl =>
          intro hL
          exact absurd hL Bool.false_ne_true
      | geoResolve g hn => intro hL; exact ih hL

/-- Witness for the amended C5 at the reachable state reached by a
single submit of "cafe". -/
theorem loading_error_invariant_witness :
    (AppState.mk (SearchState.mk "cafe" [] "" true none) none).search.error = none :=
  loading_error_invariant
    (AppState.mk (SearchState.mk "cafe" [] "" true none) none)
    (Relation.ReflTransGen.refl.tail
      (AppStep.submit _ _ "cafe" (SubmitFires.mk initialApp "cafe" "cafe" rfl rfl)))
    rfl

end MapScraper
